import Mathlib

/-!
Verification development for `src/filter/pclmtoraster.cxx` (cups-filters,
pclmtoraster filter).  The C++ source is shallowly embedded: pure pixel
arithmetic becomes Lean functions on `Nat`-indexed byte buffers, the global
mutable state of the filter becomes an explicit `JobState` record threaded
through `outPage`, and fallible paths (the `exit(1)` calls) become `Option` /
an explicit result value.  C `double` quantities (media box coordinates,
margins) are modelled as `Int`: none of the verified properties depend on
fractional values, and floating point itself is not embedded.  `unsigned int`
arithmetic is modelled as `Nat` (with an explicit mod-2^32 conversion where a
signed value is passed to an unsigned parameter).
-/

namespace Pclm

/-! ## Duplex Geometry Policy (parseOpts, lines 90-137)

The duplex block of `parseOpts` reads the `cupsBackSide` and
`APDuplexRequiresFlippedMargin` PPD attributes and sets the four file-scope
swap booleans (lines 52-56, initialized false). -/

/-- The four swap booleans (source lines 52-56, file scope, initialized to
`false`). -/
structure SwapState where
  swap_image_x : Bool
  swap_image_y : Bool
  swap_margin_x : Bool
  swap_margin_y : Bool
deriving DecidableEq, Repr

/-- All four flags false: the initial values of the globals. -/
def SwapState.init : SwapState := ⟨false, false, false, false⟩

/-- The three-valued `flippedMargin` enum of `parseOpts` (lines 94-96):
`FM_NO` when the `APDuplexRequiresFlippedMargin` attribute is absent,
`FM_TRUE` when its value is (case-insensitively) "true", `FM_FALSE`
otherwise (lines 106-113). -/
inductive FlippedMargin where
  | FM_NO | FM_FALSE | FM_TRUE
deriving DecidableEq, Repr

/-- ASCII lower-casing of one character code, as C `tolower` acts on the
ASCII letters compared by `strcasecmp`. -/
def lowerCode (n : Nat) : Nat := if 65 ≤ n ∧ n ≤ 90 then n + 32 else n

/-- Model of `strcasecmp(a,b) == 0`: ASCII case-insensitive string equality, taken at
the level of character codes. -/
def strCaseEq (a b : String) : Bool :=
  a.data.map (fun c => lowerCode c.toNat) == b.data.map (fun c => lowerCode c.toNat)

/-- The duplex block of `parseOpts` (lines 114-136), as a pure function of
the `backside` attribute value (the empty string when the `cupsBackSide`
attribute is absent and `flip_duplex` is unset; `"Rotated"` when
`flip_duplex` is set, line 103), the `header.Tumble` flag and the
`flippedMargin` enum.  Each branch accumulates the same sequence of
assignments the source performs on the four globals. -/
def computeSwapState (backside : String) (tumble : Bool)
    (flippedMargin : FlippedMargin) : SwapState :=
  let s : SwapState := SwapState.init
  if strCaseEq backside "ManualTumble" && tumble then
    -- lines 114-119
    let s := { s with swap_image_x := true, swap_image_y := true,
                      swap_margin_x := true, swap_margin_y := true }
    if flippedMargin = FlippedMargin.FM_TRUE then
      { s with swap_margin_y := false } else s
  else if strCaseEq backside "Rotated" && !tumble then
    -- lines 120-125
    let s := { s with swap_image_x := true, swap_image_y := true,
                      swap_margin_x := true, swap_margin_y := true }
    if flippedMargin = FlippedMargin.FM_TRUE then
      { s with swap_margin_y := false } else s
  else if strCaseEq backside "Flipped" then
    -- lines 126-135
    let s :=
      if tumble then
        { s with swap_image_x := true, swap_margin_x := true,
                 swap_margin_y := true }
      else
        { s with swap_image_y := true }
    if flippedMargin = FlippedMargin.FM_FALSE then
      { s with swap_margin_y := !s.swap_margin_y } else s
  else s

/-! ## Bitmap Rotator (rotatebitmap, lines 190-299)

Pixel buffers are byte-indexed total functions `Nat → Nat`; only indices
below the buffer's size are meaningful (the loops of the source never step
outside that range).  Each branch of the source fills `dst` sequentially with
a pointer walk over `src`; the embedding gives the byte the walk stores at
destination index `i`.  The derivations, from the pointer initialisations and
strides of the source:
- 180, Gray (lines 200-207): `bp` starts at `height*rowsize - 1` and steps
  `-1`, `dp` steps `+1`, so `dst[i] = src[height*rowsize - 1 - i]`.
- 180, CMYK (lines 208-218): `bp` starts at `height*rowsize - 4`, steps
  `-4`, four bytes copied in order, so
  `dst[4p+j] = src[height*rowsize - 4 - 4p + j]`.
- 180, RGB (lines 219-229): as CMYK with stride 3.
- 270, Gray (lines 232-240): row `h` of `dst` reads `src[(height-h)-1]`,
  stepping `+height`, so `dst[h*width+w] = src[w*height + (height-1-h)]`.
- 270, CMYK (lines 241-250): `bp = src + (height-h)*4 - 4`, step
  `+4*height`: `dst[4(h*width+w)+j] = src[4*(w*height + (height-1-h)) + j]`.
- 270, RGB (lines 251-262): as CMYK with stride 3.
- 90, Gray (lines 265-271): `bp = src + (width-1)*height + h`, step
  `-height`: `dst[h*width+w] = src[(width-1-w)*height + h]`.
- 90, CMYK (lines 272-281): `bp = src + (width-1)*height*4 + 4h`, step
  `-4*height`: `dst[4(h*width+w)+j] = src[4*((width-1-w)*height + h) + j]`.
- 90, RGB (lines 282-291): as CMYK with stride 3.
With `i` the flat destination byte index, `h = (i/n)/width`,
`w = (i/n)%width`, `j = i%n` for an `n`-component pixel.
Any other angle hits the `exit(1)` of lines 293-296, modelled as `none`;
an unmatched colorspace string falls through every branch and returns the
untouched (uninitialised) `dst` buffer (`temp`, line 298). -/
def rotatebitmap (src dst : Nat → Nat) (rotate height width rowsize : Nat)
    (colorspace : String) : Option (Nat → Nat) :=
  if rotate = 0 then
    some src
  else if rotate = 180 then
    if colorspace = "/DeviceGray" then
      some (fun i => src (height * rowsize - 1 - i))
    else if colorspace = "/DeviceCMYK" then
      some (fun i => src (height * rowsize - 4 - 4 * (i / 4) + i % 4))
    else if colorspace = "/DeviceRGB" then
      some (fun i => src (height * rowsize - 3 - 3 * (i / 3) + i % 3))
    else some dst
  else if rotate = 270 then
    if colorspace = "/DeviceGray" then
      some (fun i => src ((i % width) * height + (height - 1 - i / width)))
    else if colorspace = "/DeviceCMYK" then
      some (fun i =>
        src (4 * ((i / 4 % width) * height + (height - 1 - i / 4 / width)) + i % 4))
    else if colorspace = "/DeviceRGB" then
      some (fun i =>
        src (3 * ((i / 3 % width) * height + (height - 1 - i / 3 / width)) + i % 3))
    else some dst
  else if rotate = 90 then
    if colorspace = "/DeviceGray" then
      some (fun i => src ((width - 1 - i % width) * height + i / width))
    else if colorspace = "/DeviceCMYK" then
      some (fun i =>
        src (4 * ((width - 1 - i / 4 % width) * height + i / 4 / width) + i % 4))
    else if colorspace = "/DeviceRGB" then
      some (fun i =>
        src (3 * ((width - 1 - i / 3 % width) * height + i / 3 / width) + i % 3))
    else some dst
  else
    none

/-- Generic source index of the 180 degree branch for `n`-component pixels:
`src` position read for destination byte `i`. -/
def idx180 (n height rowsize i : Nat) : Nat :=
  height * rowsize - n - n * (i / n) + i % n

/-- Generic source index of the 270 degree branch for `n`-component pixels. -/
def idx270 (n height width i : Nat) : Nat :=
  n * ((i / n % width) * height + (height - 1 - i / n / width)) + i % n

/-- Generic source index of the 90 degree branch for `n`-component pixels. -/
def idx90 (n height width i : Nat) : Nat :=
  n * ((width - 1 - i / n % width) * height + i / n / width) + i % n

/-! ## Colorspace Conversion Table (lines 301-404, 461-516) -/

/-- The enumerated device target colorspaces handled by the dispatch of
`selectConvertFunc` (`header.cupsColorSpace`, lines 480-507). -/
inductive CupsCSpace where
  | K | W | SW | CMY | CMYK | RGB | SRGB | AdobeRGB
deriving DecidableEq, Repr

/-- The color order `header.cupsColorOrder`: CUPS_ORDER_CHUNKED / BANDED / PLANAR. -/
inductive ColorOrder where
  | chunked | banded | planar
deriving DecidableEq, Repr

/-- Tags for the row colorspace-conversion functions a `ConvertCSpace`
pointer can hold (lines 301-404).  The conversions themselves call the
external cupsImage* library; only `convertcspaceNoop` has its body in this
source file. -/
inductive CSpaceFn where
  | noop
  | RGBtoCMYK | RGBtoCMY | RGBtoWhite | RGBtoBlack
  | CMYKtoRGB | CMYKtoCMY | CMYKtoWhite | CMYKtoBlack
  | GraytoRGB | GraytoCMYK | GraytoCMY | GraytoBlack
deriving DecidableEq, Repr

/-- Tags for the two line-assembly functions a `ConvertLine` pointer can
hold (lines 406-459). -/
inductive LineFn where
  | convertLine | convertReverseLine
deriving DecidableEq, Repr

/-- Function `convertcspaceNoop` (lines 401-404): returns the source row unchanged;
`dst`, `row` and `pixels` are ignored. -/
def convertcspaceNoop (src dst : Nat → Nat) (row pixels : Nat) : Nat → Nat :=
  src

/-- The `convertcspace` dispatch of `selectConvertFunc` (lines 478-507):
the pointer is preset to `convertcspaceNoop` (line 478) and overwritten by
the switch on the device colorspace when a branch matches the page's source
colorspace string. -/
def selectCSpaceFn (target : CupsCSpace) (colorspace : String) : CSpaceFn :=
  match target with
  | CupsCSpace.K =>
    if colorspace = "/DeviceRGB" then CSpaceFn.RGBtoBlack
    else if colorspace = "/DeviceCMYK" then CSpaceFn.CMYKtoBlack
    else if colorspace = "/DeviceGray" then CSpaceFn.GraytoBlack
    else CSpaceFn.noop
  | CupsCSpace.W | CupsCSpace.SW =>
    if colorspace = "/DeviceRGB" then CSpaceFn.RGBtoWhite
    else if colorspace = "/DeviceCMYK" then CSpaceFn.CMYKtoWhite
    else CSpaceFn.noop
  | CupsCSpace.CMY =>
    if colorspace = "/DeviceRGB" then CSpaceFn.RGBtoCMY
    else if colorspace = "/DeviceCMYK" then CSpaceFn.CMYKtoCMY
    else if colorspace = "/DeviceGray" then CSpaceFn.GraytoCMY
    else CSpaceFn.noop
  | CupsCSpace.CMYK =>
    if colorspace = "/DeviceRGB" then CSpaceFn.RGBtoCMYK
    else if colorspace = "/DeviceGray" then CSpaceFn.GraytoCMYK
    else CSpaceFn.noop
  | CupsCSpace.RGB | CupsCSpace.AdobeRGB | CupsCSpace.SRGB =>
    if colorspace = "/DeviceCMYK" then CSpaceFn.CMYKtoRGB
    else if colorspace = "/DeviceGray" then CSpaceFn.GraytoRGB
    else CSpaceFn.noop

/-! ## convertReverseLine (lines 431-459)

The three execution paths of `convertReverseLine`.  The colorspace
conversion is abstracted by a converted-row function (the result of the
`convertcspace` call), since the conversions themselves live in the external
cupsImage library. -/

/-- Modelled from the spec: `reverseOneBitLine` (cupsfilters/bitmap.c, not
under src/) — the mirrored variant "builds the row right-to-left, i.e. pixel
i of the output equals pixel (pixelsPerRow−1−i) of the source"; one-bit
pixels are represented as `Bool`, indexed by pixel position. -/
def reverseOneBitLine (buf : Nat → Bool) (pixels : Nat) : Nat → Bool :=
  fun i => buf (pixels - 1 - i)

/-- The 1-bit single-channel path of `convertReverseLine` (lines 436-438):
the converted row `convRow` (the result of `convertcspace(src,buf,row,pixels)`)
is handed to `reverseOneBitLine`. -/
def convertReverseLineOneBit (convRow : Nat → Bool) (pixels : Nat) : Nat → Bool :=
  reverseOneBitLine convRow pixels

/-- The 8-bit chunked path of `convertReverseLine` (lines 439-447): `buf`
is set to the converted row plus `(header.cupsWidth - 1)*header.cupsNumColors`
and stepped down by `cupsNumColors` per output pixel while `dp` steps up, the
`cupsNumColors` bytes of each pixel copied in order; so destination byte
`k` reads converted byte
`(cupsWidth-1)*numColors - numColors*(k/numColors) + k%numColors`. -/
def convertReverseLineChunked (convRow : Nat → Nat) (cupsWidth numColors : Nat) :
    Nat → Nat :=
  fun k =>
    convRow ((cupsWidth - 1) * numColors - numColors * (k / numColors) + k % numColors)

/-- The general packed path of `convertReverseLine` (lines 448-457):
`convPix p` models `convertcspace(src + p*numcolors, pixelBuf1, row, 1)` —
the colorspace conversion of source pixel `p` (a pixel is its list of channel
bytes); `convbits v i` models the external `convertbits` repacking of pixel
value `v` at output position `i`.  Modelled from the spec for the external
parts: `convertbits` and `writepixel` (cupsfilters/bitmap.c, not under src/)
"repack the pixel's channel values into the target bit depth" and "write the
packed bits into the destination row at the position dictated by color
order"; the embedding returns the pixel value written at each output pixel
position.  The source pixel index `pixels - i - 1` is line 453 verbatim. -/
def convertReverseLineGeneral (convPix : Nat → List Nat)
    (convbits : List Nat → Nat → List Nat) (pixels : Nat) : Nat → List Nat :=
  fun i => convbits (convPix (pixels - i - 1)) i

/-! ## Page and job state for outPage (lines 518-710) -/

/-- The fields of the global `cups_page_header2_t header` (line 47) that the
verified claims depend on.  Further float-valued fields of the real header
(`cupsPageSize`, `cupsImagingBBox`) are claim-irrelevant and elided; C
`double` values are modelled as `Int` (the claims never depend on fractional
values). -/
structure RasterHeader where
  Duplex : Bool
  Tumble : Bool
  cupsColorSpace : CupsCSpace
  cupsBitsPerColor : Nat
  cupsBitsPerPixel : Nat
  cupsColorOrder : ColorOrder
  cupsNumColors : Nat
  cupsWidth : Nat
  cupsHeight : Nat
  cupsBytesPerLine : Nat
  PageSize0 : Nat
  PageSize1 : Nat
  Margins0 : Int
  Margins1 : Int
deriving DecidableEq, Repr

/-- The page margins, `double margins[4]` of `outPage` as produced by the
external profile matcher (`ppdRasterMatchPPDSize` / the ppd-less fallback of
lines 560-580); kept abstract as four integers. -/
structure PageMargins where
  m0 : Int
  m1 : Int
  m2 : Int
  m3 : Int
deriving DecidableEq, Repr

/-- Lines 584-586: swap left/right margins. -/
def PageMargins.swapX (m : PageMargins) : PageMargins :=
  { m with m0 := m.m2, m2 := m.m0 }

/-- Lines 587-589: swap top/bottom margins. -/
def PageMargins.swapY (m : PageMargins) : PageMargins :=
  { m with m1 := m.m3, m3 := m.m1 }

/-- The file-scope mutable globals of the filter (lines 37-62), threaded
explicitly.  `convertcspace`/`convertline` are null function pointers until
`selectConvertFunc` first assigns them, hence `Option`.  `margins` stands for
the per-job output of the external profile matcher consumed at lines
560-580. -/
structure JobState where
  header : RasterHeader
  swaps : SwapState
  rowsize : Nat
  numcolors : Nat
  convertcspace : Option CSpaceFn
  convertline : Option LineFn
  nplanes : Nat
  nbands : Nat
  bytesPerLine : Nat
  pwgraster : Bool
  margins : PageMargins
deriving DecidableEq, Repr

/-- Replace the four swap booleans of a state. -/
def setSwaps (s : JobState) (a b c d : Bool) : JobState :=
  { s with swaps := ⟨a, b, c, d⟩ }

/-- One image XObject of a page: its `/Width`, `/Height` and `/ColorSpace`
dictionary entries (`colorspaceName` is `some` when the entry is a name
object).  The raw stream bytes are not tracked: no verified claim depends on
them. -/
structure PageImage where
  width : Nat
  height : Nat
  colorspaceName : Option String
deriving DecidableEq, Repr

/-- A page object handed to `outPage`: whether it is a dictionary, its
`/MediaBox` entry (`none` when the key is absent; the list is
`getArrayAsVector` of the value, empty for a non-array), its `/Rotate` entry
(`some` when present and an integer; `getIntValueAsInt` yields a C `int`),
and its image XObjects in iteration order. -/
structure Page where
  isDict : Bool
  mediaBox : Option (List Int)
  rotateKey : Option Int
  images : List PageImage
deriving DecidableEq, Repr

/-- Function `mediaboxlookup` (lines 175-188): false unless the page object is a
dictionary with a `/MediaBox` key whose array has exactly 4 elements. -/
def mediaboxlookup (p : Page) : Bool :=
  if !p.isDict || p.mediaBox.isNone then false
  else (p.mediaBox.getD []).length == 4

/-- Line 639 together with the reset of line 614: the page width is the
maximum image `/Width` (0 when there are no images). -/
def pageWidth (p : Page) : Nat :=
  p.images.foldl (fun acc im => if im.width > acc then im.width else acc) 0

/-- Line 627 together with the reset of line 615: the page height is the sum
of the image `/Height`s. -/
def pageHeight (p : Page) : Nat :=
  p.images.foldl (fun acc im => acc + im.height) 0

/-- Line 659: the page colorspace is the last image's `/ColorSpace` name,
defaulting to `"/DeviceRGB"` (also when there is no image or the entry is
not a name object). -/
def pageColorspace (p : Page) : String :=
  ((p.images.getLast?).bind PageImage.colorspaceName).getD "/DeviceRGB"

/-- The guard `header.Duplex && (pgno & 1)`: the guard of every duplex backside
branch (lines 510, 582, 662, 684). -/
def duplexBackside (duplex : Bool) (pgno : Nat) : Bool :=
  duplex && pgno % 2 == 1

/-- C `%` on signed integers truncates toward zero; for the positive
modulus used at line 663 this is `a % b` for `a ≥ 0` and `-((-a) % b)`
otherwise (`%` on `Int` being the Euclidean mod). -/
def cMod (a b : Int) : Int :=
  if 0 ≤ a then a % b else -((-a) % b)

/-- Conversion of a signed value to C `unsigned int` (the `rotate` parameter
of `rotatebitmap`): reduction mod 2^32. -/
def toU32 (r : Int) : Nat :=
  (r % 4294967296).toNat

/-- Lines 649-652: bytes per line from bits per pixel and width, and the
header's `cupsBytesPerLine`, which is additionally multiplied by
`cupsNumColors` when the color order is banded.  Returns
`(bytesPerLine, cupsBytesPerLine)`. -/
def computeBytesPerLine (bitsPerPixel width : Nat) (order : ColorOrder)
    (numColors : Nat) : Nat × Nat :=
  let bytesPerLine := (bitsPerPixel * width + 7) / 8
  (bytesPerLine,
   if order = ColorOrder.banded then bytesPerLine * numColors else bytesPerLine)

/-- Function `selectConvertFunc` (lines 461-516): sets `rowsize` and `numcolors` from
the page colorspace (exiting — `none` — for an unsupported one, lines
473-476), installs the `convertcspace` function (lines 478-507) and picks
`convertReverseLine` exactly for a duplex backside page whose image-x swap
is still requested (lines 509-514). -/
def selectConvertFunc (s : JobState) (colorspace : String) (pgno : Nat) :
    Option JobState :=
  let rn : Option (Nat × Nat) :=
    if colorspace = "/DeviceRGB" then some (s.header.cupsWidth * 3, 3)
    else if colorspace = "/DeviceCMYK" then some (s.header.cupsWidth * 4, 4)
    else if colorspace = "/DeviceGray" then some (s.header.cupsWidth, 1)
    else none
  match rn with
  | none => none
  | some (rs, nc) =>
    let fn := selectCSpaceFn s.header.cupsColorSpace colorspace
    let lf := if duplexBackside s.header.Duplex pgno && s.swaps.swap_image_x
              then LineFn.convertReverseLine else LineFn.convertLine
    some { s with rowsize := rs, numcolors := nc,
                  convertcspace := some fn, convertline := some lf }

/-- One event on the raster output stream: a page header record
(`cupsRasterWriteHeader2`, line 654) or one scanline
(`cupsRasterWritePixels`, lines 690/701); a scanline records the row index
`h` handed to `convertline`.  Scanline byte content is not tracked here (the
row conversions are verified separately on abstract rows). -/
inductive Emit where
  | header (h : RasterHeader)
  | line (row : Nat)
deriving DecidableEq, Repr

/-- True exactly on header records. -/
def isHeaderEmit : Emit → Bool
  | Emit.header _ => true
  | Emit.line _ => false

/-- Diagnostic stderr lines of `outPage` that the claims mention. -/
inductive LogMsg where
  | badMediaBox (pgno : Nat)
  | badRotate (angle : Nat)
  | csNotSupported (colorspace : String)
deriving DecidableEq, Repr

/-- How a page's processing ended: normally, skipped (the early `return` of
line 543), or with `exit(code)`. -/
inductive PageResult where
  | ok
  | skipped
  | fatal (code : Nat)
deriving DecidableEq, Repr

/-- Record of the arguments of an `rotatebitmap` invocation from `outPage`
(line 671). -/
structure RotateCall where
  angle : Nat
  height : Nat
  width : Nat
  rowsize : Nat
deriving DecidableEq, Repr

/-- Result of processing one page: the raster stream events, the diagnostic
log, the recorded Bitmap Rotator call (if any), the header written (if any),
the global state afterwards, and how processing ended. -/
structure OutPageR where
  trace : List Emit
  logs : List LogMsg
  rotateCall : Option RotateCall
  written : Option RasterHeader
  state : JobState
  result : PageResult
deriving DecidableEq, Repr

/-- Function `outPage` (lines 518-710), as a function of the global state, the page
object and the 0-based page number.  Mirrors the source order: `/Rotate`
lookup (537-538), media box check (541-543), page size orientation
(546-557), margins from the external profile matcher (560-580, abstracted
as `s.margins`), backside margin swap (582-590), header geometry assembly
(592-612; float rounding is exact under the integral-value model), image
concatenation (614-640), landscape width/height swap (643-647),
bytes-per-line (649-652), header write (654), colorspace resolution (659),
duplex both-swap fold into a 180 degree rotation (662-666), bitmap rotation
(668-674; the byte buffer is not tracked, the call's arguments are recorded
and its fatal branch taken from `rotatebitmap`), conversion-function
selection (679) and the scanline loops (682-706).

First, lines 546-612 and 643-652 of `outPage`: the page header record as it is
written at line 654 — page size from the media box extents oriented by the
`/Rotate` value, margins from the external profile matcher after the duplex
backside swap (zeroed for pwg output), width/height from the image strips
(swapped for 90/270), and the bytes-per-line fields. -/
def pageHeaderOf (s : JobState) (page : Page) (pgno : Nat) : RasterHeader :=
  let rotate0 : Int := page.rotateKey.getD 0
  let mb := page.mediaBox.getD []
  let lx := (mb.getD 2 0 - mb.getD 0 0).natAbs
  let ly := (mb.getD 3 0 - mb.getD 1 0).natAbs
  let ps0 := if rotate0 = 90 ∨ rotate0 = 270 then ly else lx
  let ps1 := if rotate0 = 90 ∨ rotate0 = 270 then lx else ly
  let m := s.margins
  let m := if duplexBackside s.header.Duplex pgno then
      (let m1 := if s.swaps.swap_margin_x then m.swapX else m
       if s.swaps.swap_margin_y then m1.swapY else m1)
    else m
  let mrg0 := if s.pwgraster then 0 else m.m0
  let mrg1 := if s.pwgraster then 0 else m.m1
  let w0 := pageWidth page
  let h0 := pageHeight page
  let cw := if rotate0 = 270 ∨ rotate0 = 90 then h0 else w0
  let ch := if rotate0 = 270 ∨ rotate0 = 90 then w0 else h0
  let bp := computeBytesPerLine s.header.cupsBitsPerPixel cw
              s.header.cupsColorOrder s.header.cupsNumColors
  { s.header with
    cupsWidth := cw, cupsHeight := ch,
    cupsBytesPerLine := bp.2, PageSize0 := ps0, PageSize1 := ps1,
    Margins0 := mrg0, Margins1 := mrg1 }

def outPage (s : JobState) (page : Page) (pgno : Nat) : OutPageR :=
  let rotate0 : Int := page.rotateKey.getD 0
  if !mediaboxlookup page then
    { trace := [], logs := [LogMsg.badMediaBox pgno], rotateCall := none,
      written := none, state := s, result := PageResult.skipped }
  else
    let hdr := pageHeaderOf s page pgno
    let ch := hdr.cupsHeight
    let cw := hdr.cupsWidth
    let s1 := { s with
      header := hdr,
      bytesPerLine := (computeBytesPerLine s.header.cupsBitsPerPixel
        cw s.header.cupsColorOrder s.header.cupsNumColors).1 }
    let colorspace := pageColorspace page
    let fold := duplexBackside s1.header.Duplex pgno &&
                s1.swaps.swap_image_y && s1.swaps.swap_image_x
    let rotate : Int := if fold then cMod (rotate0 + 180) 360 else rotate0
    let s2 := if fold then
        { s1 with swaps := { s1.swaps with
          swap_image_x := false, swap_image_y := false } }
      else s1
    let rcall := if rotate = 0 then none else
        some { angle := toU32 rotate, height := ch, width := cw,
               rowsize := s2.rowsize }
    if rotate ≠ 0 ∧
       (rotatebitmap (fun _ => 0) (fun _ => 0) (toU32 rotate) ch cw
          s2.rowsize colorspace).isNone then
      { trace := [Emit.header hdr], logs := [LogMsg.badRotate (toU32 rotate)],
        rotateCall := rcall, written := some hdr, state := s2,
        result := PageResult.fatal 1 }
    else
      match selectConvertFunc s2 colorspace pgno with
      | none =>
        { trace := [Emit.header hdr],
          logs := [LogMsg.csNotSupported colorspace],
          rotateCall := rcall, written := some hdr, state := s2,
          result := PageResult.fatal 1 }
      | some s3 =>
        let rows := if duplexBackside s3.header.Duplex pgno &&
                       s3.swaps.swap_image_y
                    then (List.range ch).reverse else List.range ch
        { trace := Emit.header hdr ::
            (List.range s3.nplanes).flatMap (fun _ =>
              rows.flatMap (fun r => List.replicate s3.nbands (Emit.line r))),
          logs := [], rotateCall := rcall, written := some hdr, state := s3,
          result := PageResult.ok }

/-- The page loop of `main` (lines 789-793): pages processed in order, a
fatal page ends the job there, otherwise processing continues with the next
page index.  Returns the concatenated raster stream events and logs. -/
def runJob (s : JobState) (pages : List Page) (pgno : Nat) :
    List Emit × List LogMsg :=
  match pages with
  | [] => ([], [])
  | p :: rest =>
    let r := outPage s p pgno
    match r.result with
    | PageResult.fatal _ => (r.trace, r.logs)
    | _ =>
      let t := runJob r.state rest (pgno + 1)
      (r.trace ++ t.1, r.logs ++ t.2)

/-- The global state right after startup (`parseOpts` and the
`nplanes`/`nbands` setup of lines 769-778): the swap flags come from the
duplex block (lines 90-137) when the job is duplex, `rowsize`, `numcolors`
and `bytesPerLine` hold their file-scope initial value 0 (lines 44-46, 59),
and the conversion function pointers are still null (lines 42-43).  The
header, backside/flipped-margin attributes, margins and the pwg flag are the
outputs of the external option/profile parsing. -/
def initialJobState (hdr : RasterHeader) (backside : String)
    (flippedMargin : FlippedMargin) (margins : PageMargins)
    (pwgraster : Bool) : JobState :=
  { header := hdr,
    swaps := if hdr.Duplex then
        computeSwapState backside hdr.Tumble flippedMargin
      else SwapState.init,
    rowsize := 0, numcolors := 0,
    convertcspace := none, convertline := none,
    nplanes := if hdr.cupsColorOrder = ColorOrder.planar
               then hdr.cupsNumColors else 1,
    nbands := if hdr.cupsColorOrder = ColorOrder.banded
              then hdr.cupsNumColors else 1,
    bytesPerLine := 0,
    pwgraster := pwgraster, margins := margins }

/-! ## Concrete instances used by the witnesses -/

/-- A simple non-duplex CMYK 8-bit chunked device header. -/
def hdrW : RasterHeader :=
  { Duplex := false, Tumble := false, cupsColorSpace := CupsCSpace.CMYK,
    cupsBitsPerColor := 8, cupsBitsPerPixel := 32,
    cupsColorOrder := ColorOrder.chunked, cupsNumColors := 4,
    cupsWidth := 0, cupsHeight := 0, cupsBytesPerLine := 0,
    PageSize0 := 0, PageSize1 := 0, Margins0 := 0, Margins1 := 0 }

/-- The duplex variant of `hdrW`. -/
def hdrD : RasterHeader := { hdrW with Duplex := true }

/-- Job state for a non-duplex job. -/
def stW : JobState := initialJobState hdrW "" FlippedMargin.FM_NO ⟨0, 0, 0, 0⟩ false

/-- Job state for a duplex job with backside "Rotated", tumble off: all four
swap flags are requested. -/
def stD : JobState := initialJobState hdrD "Rotated" FlippedMargin.FM_NO ⟨0, 0, 0, 0⟩ false

/-- A 4 by 2 RGB image strip. -/
def imgW : PageImage :=
  { width := 4, height := 2, colorspaceName := some "/DeviceRGB" }

/-- A well-formed unrotated page with one image. -/
def pageW : Page :=
  { isDict := true, mediaBox := some [0, 0, 612, 792], rotateKey := none,
    images := [imgW] }

/-- Page `pageW` with `/Rotate 45`, an unsupported angle. -/
def pageRot45 : Page := { pageW with rotateKey := some 45 }

/-- A page without a `/MediaBox` key. -/
def pageNoBox : Page :=
  { isDict := true, mediaBox := none, rotateKey := none, images := [imgW] }

/-- A concrete 3-row by 2-column gray buffer (2 rows by 3 columns once
rotated by 90 degrees) used by witnesses. -/
def bufC3 : Nat → Nat := fun i => i

/-- Buffer `bufC3` rotated by 90 degrees with `height = 2`, `width = 3`. -/
def bufC3y : Nat → Nat := fun i => bufC3 ((3 - 1 - i % 3) * 2 + i / 3)

/-- Buffer `bufC3y` rotated by 270 degrees with `height = 3`, `width = 2`. -/
def bufC3z : Nat → Nat := fun i => bufC3y ((i % 2) * 3 + (3 - 1 - i / 2))

/-- A concrete 2x3 RGB buffer rotated by 180 degrees (`rowsize = 9`). -/
def bufC3y180 : Nat → Nat :=
  fun i => bufC3 (2 * (3 * 3) - 3 - 3 * (i / 3) + i % 3)

/-- Buffer `bufC3y180` rotated by 180 degrees again. -/
def bufC3z180 : Nat → Nat :=
  fun i => bufC3y180 (2 * (3 * 3) - 3 - 3 * (i / 3) + i % 3)

/-- The state produced by `selectConvertFunc` on the concrete non-duplex
job for an RGB page (used by the C7 witness). -/
def selW : JobState := (selectConvertFunc stW "/DeviceRGB" 0).getD stW

/-! # Theorems -/

/-! ## Index arithmetic for the Bitmap Rotator -/

theorem mul_add_div_small {n : Nat} (hn : 0 < n) (q r : Nat) (hr : r < n) :
    (n * q + r) / n = q := by
  rw [Nat.mul_add_div hn, Nat.div_eq_of_lt hr]
  omega

theorem mul_add_mod_small {n : Nat} (q r : Nat) (hr : r < n) :
    (n * q + r) % n = r := by
  rw [Nat.mul_add_mod, Nat.mod_eq_of_lt hr]

theorem idx180_apply (n H W q r : Nat) (hn : 0 < n) (hq : q < H * W) (hr : r < n) :
    idx180 n H (n * W) (n * q + r) = n * (H * W - 1 - q) + r := by
  unfold idx180
  rw [mul_add_div_small hn q r hr, mul_add_mod_small q r hr]
  have hc : H * (n * W) = n * (H * W) := by ring
  have h3 : n * (H * W - 1 - q) = n * (H * W) - n * 1 - n * q := by
    rw [Nat.mul_sub, Nat.mul_sub]
  have h4 : n * (q + 1) ≤ n * (H * W) := Nat.mul_le_mul_left n hq
  rw [Nat.mul_succ] at h4
  omega

theorem idx180_invol (n H W i : Nat) (hn : 0 < n) (hi : i < n * (H * W)) :
    idx180 n H (n * W) (idx180 n H (n * W) i) = i := by
  have hdm : n * (i / n) + i % n = i := Nat.div_add_mod i n
  have hrn : i % n < n := Nat.mod_lt _ hn
  have hpN : i / n < H * W := Nat.div_lt_of_lt_mul hi
  generalize hP : i / n = p at hdm hpN
  generalize hR : i % n = r at hdm hrn
  rw [← hdm, idx180_apply n H W p r hn hpN hrn,
      idx180_apply n H W (H * W - 1 - p) r hn (by omega) hrn]
  have h5 : H * W - 1 - (H * W - 1 - p) = p := by omega
  rw [h5]

theorem idx270_apply (n W H a b r : Nat) (hn : 0 < n) (hb : b < H)
    (hr : r < n) :
    idx270 n W H (n * (H * a + b) + r) = n * (b * W + (W - 1 - a)) + r := by
  unfold idx270
  rw [mul_add_div_small hn _ r hr, mul_add_mod_small _ r hr,
      mul_add_mod_small a b hb, mul_add_div_small (by omega : 0 < H) a b hb]

theorem idx90_apply (n H W a b r : Nat) (hn : 0 < n) (ha : a < W)
    (hr : r < n) :
    idx90 n H W (n * (W * b + (W - 1 - a)) + r) = n * (a * H + b) + r := by
  unfold idx90
  rw [mul_add_div_small hn _ r hr, mul_add_mod_small _ r hr,
      mul_add_mod_small b (W - 1 - a) (by omega),
      mul_add_div_small (by omega : 0 < W) b (W - 1 - a) (by omega)]
  have h5 : W - 1 - (W - 1 - a) = a := by omega
  rw [h5]

theorem idx90_idx270 (n H W i : Nat) (hn : 0 < n) (hi : i < n * (H * W)) :
    idx90 n H W (idx270 n W H i) = i := by
  have hdm : n * (i / n) + i % n = i := Nat.div_add_mod i n
  have hrn : i % n < n := Nat.mod_lt _ hn
  have hpN : i / n < H * W := Nat.div_lt_of_lt_mul hi
  have hH : 0 < H := by
    rcases Nat.eq_zero_or_pos H with h0 | h
    · subst h0; simp at hpN
    · exact h
  have hab : H * (i / n / H) + i / n % H = i / n := Nat.div_add_mod (i / n) H
  have hbH : i / n % H < H := Nat.mod_lt _ hH
  have haW : i / n / H < W := Nat.div_lt_of_lt_mul (hab ▸ hpN)
  generalize hA : i / n / H = a at hab haW
  generalize hB : i / n % H = b at hab hbH
  generalize hP : i / n = p at hdm hab
  generalize hR : i % n = r at hdm hrn
  rw [← hdm, ← hab]
  rw [idx270_apply n W H a b r hn hbH hrn]
  have e1 : b * W + (W - 1 - a) = W * b + (W - 1 - a) := by ring_nf
  rw [e1, idx90_apply n H W a b r hn haW hrn]
  have e2 : a * H + b = H * a + b := by ring_nf
  rw [e2]

/-- The single-byte-pixel 270 degree branch formula is `idx270` at `n = 1`. -/
theorem gray270_idx (H W i : Nat) :
    (i % W) * H + (H - 1 - i / W) = idx270 1 H W i := by
  simp [idx270, Nat.mod_one]

/-- The single-byte-pixel 90 degree branch formula is `idx90` at `n = 1`. -/
theorem gray90_idx (H W i : Nat) :
    (W - 1 - i % W) * H + i / W = idx90 1 H W i := by
  simp [idx90, Nat.mod_one]

/-- C1: the duplex block of parseOpts implements the swap-state table: for
backside "ManualTumble" with tumble, and "Rotated" without tumble, all four
flags are set, with swap-margin-y forced back to false when the
flipped-margin attribute is true; for "Flipped" with tumble image-x and the
two margin flags are set, without tumble only image-y, with swap-margin-y
inverted when the flipped-margin attribute is false; every other
combination, including absent or unrecognized attribute values, leaves all
four flags false, and there is no error case (the function is total). -/
theorem C1_computeSwapState_table :
    (∀ fm, computeSwapState "ManualTumble" true fm =
      ⟨true, true, true, if fm = FlippedMargin.FM_TRUE then false else true⟩) ∧
    (∀ fm, computeSwapState "Rotated" false fm =
      ⟨true, true, true, if fm = FlippedMargin.FM_TRUE then false else true⟩) ∧
    (∀ fm, computeSwapState "Flipped" true fm =
      ⟨true, false, true, if fm = FlippedMargin.FM_FALSE then false else true⟩) ∧
    (∀ fm, computeSwapState "Flipped" false fm =
      ⟨false, true, false, if fm = FlippedMargin.FM_FALSE then true else false⟩) ∧
    (∀ backside tumble fm,
      (strCaseEq backside "ManualTumble" && tumble) = false →
      (strCaseEq backside "Rotated" && !tumble) = false →
      strCaseEq backside "Flipped" = false →
      computeSwapState backside tumble fm = SwapState.init) := by
  refine ⟨?_, ?_, ?_, ?_, ?_⟩
  · intro fm; cases fm <;> decide
  · intro fm; cases fm <;> decide
  · intro fm; cases fm <;> decide
  · intro fm; cases fm <;> decide
  · intro backside tumble fm h1 h2 h3
    simp [computeSwapState, h1, h2, h3]

/-- Witness for C1 at a concrete unrecognized backside value. -/
theorem C1_witness :
    computeSwapState "Normal" false FlippedMargin.FM_NO = SwapState.init :=
  C1_computeSwapState_table.2.2.2.2 "Normal" false FlippedMargin.FM_NO
    (by decide) (by decide) (by decide)

/-- C3: `rotatebitmap` returns the source buffer unchanged for angle 0, and
on every buffer of width x height >= 1 pixels in the Gray, RGB and CMYK
strides, rotating by 90 and then by 270 degrees (with the height/width
parameters of the second call matching the intermediate buffer) restores
every byte of the buffer, as does rotating twice by 180 degrees with the row
stride `width * components`. -/
theorem C3_rotatebitmap_algebra :
    (∀ src dst height width rowsize colorspace,
       rotatebitmap src dst 0 height width rowsize colorspace = some src) ∧
    (∀ H W r1 r2 x d1 d2 y z, 1 ≤ H → 1 ≤ W →
       rotatebitmap x d1 90 H W r1 "/DeviceGray" = some y →
       rotatebitmap y d2 270 W H r2 "/DeviceGray" = some z →
       ∀ i, i < H * W → z i = x i) ∧
    (∀ H W r1 r2 x d1 d2 y z, 1 ≤ H → 1 ≤ W →
       rotatebitmap x d1 90 H W r1 "/DeviceRGB" = some y →
       rotatebitmap y d2 270 W H r2 "/DeviceRGB" = some z →
       ∀ i, i < 3 * (H * W) → z i = x i) ∧
    (∀ H W r1 r2 x d1 d2 y z, 1 ≤ H → 1 ≤ W →
       rotatebitmap x d1 90 H W r1 "/DeviceCMYK" = some y →
       rotatebitmap y d2 270 W H r2 "/DeviceCMYK" = some z →
       ∀ i, i < 4 * (H * W) → z i = x i) ∧
    (∀ H W x d1 d2 y z, 1 ≤ H → 1 ≤ W →
       rotatebitmap x d1 180 H W W "/DeviceGray" = some y →
       rotatebitmap y d2 180 H W W "/DeviceGray" = some z →
       ∀ i, i < H * W → z i = x i) ∧
    (∀ H W x d1 d2 y z, 1 ≤ H → 1 ≤ W →
       rotatebitmap x d1 180 H W (W * 3) "/DeviceRGB" = some y →
       rotatebitmap y d2 180 H W (W * 3) "/DeviceRGB" = some z →
       ∀ i, i < 3 * (H * W) → z i = x i) ∧
    (∀ H W x d1 d2 y z, 1 ≤ H → 1 ≤ W →
       rotatebitmap x d1 180 H W (W * 4) "/DeviceCMYK" = some y →
       rotatebitmap y d2 180 H W (W * 4) "/DeviceCMYK" = some z →
       ∀ i, i < 4 * (H * W) → z i = x i) := by
  refine ⟨?_, ?_, ?_, ?_, ?_, ?_, ?_⟩
  · intro src dst height width rowsize colorspace; rfl
  · intro H W r1 r2 x d1 d2 y z hH hW h1 h2 i hi
    injection h1 with hyf
    injection h2 with hzf
    have hy : ∀ j, y j = x ((W - 1 - j % W) * H + j / W) :=
      fun j => (congrFun hyf j).symm
    have hz : ∀ j, z j = y ((j % H) * W + (W - 1 - j / H)) :=
      fun j => (congrFun hzf j).symm
    rw [hz i, hy _, gray90_idx H W _, gray270_idx W H i,
        idx90_idx270 1 H W i (by omega) (by omega)]
  · intro H W r1 r2 x d1 d2 y z hH hW h1 h2 i hi
    injection h1 with hyf
    injection h2 with hzf
    have hy : ∀ j, y j = x (idx90 3 H W j) := fun j => (congrFun hyf j).symm
    have hz : ∀ j, z j = y (idx270 3 W H j) := fun j => (congrFun hzf j).symm
    rw [hz i, hy _, idx90_idx270 3 H W i (by omega) hi]
  · intro H W r1 r2 x d1 d2 y z hH hW h1 h2 i hi
    injection h1 with hyf
    injection h2 with hzf
    have hy : ∀ j, y j = x (idx90 4 H W j) := fun j => (congrFun hyf j).symm
    have hz : ∀ j, z j = y (idx270 4 W H j) := fun j => (congrFun hzf j).symm
    rw [hz i, hy _, idx90_idx270 4 H W i (by omega) hi]
  · intro H W x d1 d2 y z hH hW h1 h2 i hi
    injection h1 with hyf
    injection h2 with hzf
    have hy : ∀ j, y j = x (H * W - 1 - j) := fun j => (congrFun hyf j).symm
    have hz : ∀ j, z j = y (H * W - 1 - j) := fun j => (congrFun hzf j).symm
    rw [hz i, hy _]
    have h5 : H * W - 1 - (H * W - 1 - i) = i := by omega
    rw [h5]
  · intro H W x d1 d2 y z hH hW h1 h2 i hi
    injection h1 with hyf
    injection h2 with hzf
    have e : ∀ j, H * (W * 3) - 3 - 3 * (j / 3) + j % 3 = idx180 3 H (3 * W) j := by
      intro j
      unfold idx180
      rw [Nat.mul_comm W 3]
    have hy : ∀ j, y j = x (idx180 3 H (3 * W) j) := by
      intro j
      rw [← congrFun hyf j]
      exact congrArg x (e j)
    have hz : ∀ j, z j = y (idx180 3 H (3 * W) j) := by
      intro j
      rw [← congrFun hzf j]
      exact congrArg y (e j)
    rw [hz i, hy _, idx180_invol 3 H W i (by omega) hi]
  · intro H W x d1 d2 y z hH hW h1 h2 i hi
    injection h1 with hyf
    injection h2 with hzf
    have e : ∀ j, H * (W * 4) - 4 - 4 * (j / 4) + j % 4 = idx180 4 H (4 * W) j := by
      intro j
      unfold idx180
      rw [Nat.mul_comm W 4]
    have hy : ∀ j, y j = x (idx180 4 H (4 * W) j) := by
      intro j
      rw [← congrFun hyf j]
      exact congrArg x (e j)
    have hz : ∀ j, z j = y (idx180 4 H (4 * W) j) := by
      intro j
      rw [← congrFun hzf j]
      exact congrArg y (e j)
    rw [hz i, hy _, idx180_invol 4 H W i (by omega) hi]

/-- Witness for C3 on a concrete 2x3 gray buffer (90 then 270) and a
concrete 2x3 RGB buffer (180 twice), plus the angle-0 identity. -/
theorem C3_witness :
    bufC3z 5 = bufC3 5 ∧ bufC3z180 17 = bufC3 17 ∧
    rotatebitmap bufC3 (fun _ => 0) 0 2 3 3 "/DeviceGray" = some bufC3 :=
  ⟨C3_rotatebitmap_algebra.2.1 2 3 3 2 bufC3 (fun _ => 0) (fun _ => 0)
      bufC3y bufC3z (by omega) (by omega) rfl rfl 5 (by omega),
   C3_rotatebitmap_algebra.2.2.2.2.2.1 2 3 bufC3 (fun _ => 0) (fun _ => 0)
      bufC3y180 bufC3z180 (by omega) (by omega) rfl rfl 17 (by omega),
   C3_rotatebitmap_algebra.1 bufC3 (fun _ => 0) 2 3 3 "/DeviceGray"⟩

/-- C4: for angle 180 over a height x width buffer with row stride
`width * components`, output row `h` is input row `height-1-h` with pixel
order reversed and component bytes kept in order: at component granularity
`dst[i] = src[N-1-i]` for Gray, and for 3- and 4-component pixels whole
pixels are reversed as groups while byte `j` inside a pixel stays byte
`j`. -/
theorem C4_rotate180_semantics :
    (∀ H W x d y, rotatebitmap x d 180 H W W "/DeviceGray" = some y →
       ∀ i, i < H * W → y i = x (H * W - 1 - i)) ∧
    (∀ H W x d y, rotatebitmap x d 180 H W (W * 3) "/DeviceRGB" = some y →
       ∀ h w j, h < H → w < W → j < 3 →
         y (3 * (h * W + w) + j) = x (3 * ((H - 1 - h) * W + (W - 1 - w)) + j)) ∧
    (∀ H W x d y, rotatebitmap x d 180 H W (W * 4) "/DeviceCMYK" = some y →
       ∀ h w j, h < H → w < W → j < 4 →
         y (4 * (h * W + w) + j) = x (4 * ((H - 1 - h) * W + (W - 1 - w)) + j)) := by
  refine ⟨?_, ?_, ?_⟩
  · intro H W x d y h1 i hi
    injection h1 with hyf
    rw [← congrFun hyf i]
  · intro H W x d y h1 h w j hh hw hj
    injection h1 with hyf
    rw [← congrFun hyf (3 * (h * W + w) + j)]
    have hdiv : (3 * (h * W + w) + j) / 3 = h * W + w :=
      mul_add_div_small (by omega) _ j hj
    have hmod : (3 * (h * W + w) + j) % 3 = j := mul_add_mod_small _ j hj
    rw [hdiv, hmod]
    congr 1
    have e1 : H * (W * 3) = 3 * (H * W) := by ring
    have e2 : 3 * (h * W + w) = 3 * (h * W) + 3 * w := by ring
    have e3 : 3 * ((H - 1 - h) * W + (W - 1 - w))
        = 3 * ((H - 1 - h) * W) + 3 * (W - 1 - w) := by ring
    have e4 : (H - 1 - h) * W = H * W - 1 * W - h * W := by
      rw [Nat.sub_mul, Nat.sub_mul]
    have e5 : 3 * (H * W - 1 * W - h * W)
        = 3 * (H * W) - 3 * (1 * W) - 3 * (h * W) := by
      rw [Nat.mul_sub, Nat.mul_sub]
    have e6 : 3 * (W - 1 - w) = 3 * W - 3 * 1 - 3 * w := by
      rw [Nat.mul_sub, Nat.mul_sub]
    have hb1 : (h + 1) * W ≤ H * W := Nat.mul_le_mul_right W (by omega)
    rw [Nat.add_mul, Nat.one_mul] at hb1
    omega
  · intro H W x d y h1 h w j hh hw hj
    injection h1 with hyf
    rw [← congrFun hyf (4 * (h * W + w) + j)]
    have hdiv : (4 * (h * W + w) + j) / 4 = h * W + w :=
      mul_add_div_small (by omega) _ j hj
    have hmod : (4 * (h * W + w) + j) % 4 = j := mul_add_mod_small _ j hj
    rw [hdiv, hmod]
    congr 1
    have e1 : H * (W * 4) = 4 * (H * W) := by ring
    have e2 : 4 * (h * W + w) = 4 * (h * W) + 4 * w := by ring
    have e3 : 4 * ((H - 1 - h) * W + (W - 1 - w))
        = 4 * ((H - 1 - h) * W) + 4 * (W - 1 - w) := by ring
    have e4 : (H - 1 - h) * W = H * W - 1 * W - h * W := by
      rw [Nat.sub_mul, Nat.sub_mul]
    have e5 : 4 * (H * W - 1 * W - h * W)
        = 4 * (H * W) - 4 * (1 * W) - 4 * (h * W) := by
      rw [Nat.mul_sub, Nat.mul_sub]
    have e6 : 4 * (W - 1 - w) = 4 * W - 4 * 1 - 4 * w := by
      rw [Nat.mul_sub, Nat.mul_sub]
    have hb1 : (h + 1) * W ≤ H * W := Nat.mul_le_mul_right W (by omega)
    rw [Nat.add_mul, Nat.one_mul] at hb1
    omega

/-- Witness for C4: the 2x3 RGB 180-degree rotation at row 0, pixel 1,
byte 2, and the gray involution buffer at index 4. -/
theorem C4_witness :
    bufC3y180 (3 * (0 * 3 + 1) + 2) = bufC3 (3 * ((2 - 1 - 0) * 3 + (3 - 1 - 1)) + 2) :=
  C4_rotate180_semantics.2.1 2 3 bufC3 (fun _ => 0) bufC3y180 rfl 0 1 2
    (by omega) (by omega) (by omega)

/-- C5: the conversion dispatch is total over the eight device target
colorspaces and the three page source colorspaces — `selectConvertFunc`
always installs a (non-null) conversion function, namely
`selectCSpaceFn` of the pair — and each pair without an explicit table
entry (W/SW with Gray, CMYK with CMYK, and the RGB family with RGB) gets
the identity no-op, which returns the source row unchanged. -/
theorem C5_dispatch_total_identity :
    (∀ s colorspace pgno,
       (colorspace = "/DeviceGray" ∨ colorspace = "/DeviceRGB" ∨
        colorspace = "/DeviceCMYK") →
       (selectConvertFunc s colorspace pgno).isSome = true ∧
       ∀ s', selectConvertFunc s colorspace pgno = some s' →
         s'.convertcspace =
           some (selectCSpaceFn s.header.cupsColorSpace colorspace)) ∧
    (selectCSpaceFn CupsCSpace.W "/DeviceGray" = CSpaceFn.noop ∧
     selectCSpaceFn CupsCSpace.SW "/DeviceGray" = CSpaceFn.noop ∧
     selectCSpaceFn CupsCSpace.CMYK "/DeviceCMYK" = CSpaceFn.noop ∧
     selectCSpaceFn CupsCSpace.RGB "/DeviceRGB" = CSpaceFn.noop ∧
     selectCSpaceFn CupsCSpace.SRGB "/DeviceRGB" = CSpaceFn.noop ∧
     selectCSpaceFn CupsCSpace.AdobeRGB "/DeviceRGB" = CSpaceFn.noop) ∧
    (∀ src dst row pixels, convertcspaceNoop src dst row pixels = src) := by
  refine ⟨?_, ⟨rfl, rfl, rfl, rfl, rfl, rfl⟩, fun src dst row pixels => rfl⟩
  intro s colorspace pgno hcs
  rcases hcs with h | h | h <;> subst h <;> refine ⟨rfl, ?_⟩ <;>
    intro s' hsel <;> injection hsel with hsel <;> rw [← hsel]

/-- Witness for C5 at a concrete state and the Gray source colorspace. -/
theorem C5_witness :
    (selectConvertFunc stW "/DeviceGray" 0).isSome = true :=
  (C5_dispatch_total_identity.1 stW "/DeviceGray" 0 (Or.inl rfl)).1

/-- C6: the computed bytes-per-line is `(bitsPerPixel * width + 7) / 8`
(integer ceiling of `bitsPerPixel * width / 8`), the header's
cupsBytesPerLine is that value multiplied by the number of color components
exactly for banded color order, the header `outPage` writes carries exactly
this computation at the page's width, and the concrete cases
`8 bits, width 100, chunked -> 100` and `1 bit, width 10 -> 2` hold. -/
theorem C6_bytes_per_line :
    (∀ bpp w order nc,
       (computeBytesPerLine bpp w order nc).1 = (bpp * w + 7) / 8 ∧
       (order = ColorOrder.banded →
         (computeBytesPerLine bpp w order nc).2 = ((bpp * w + 7) / 8) * nc) ∧
       (order ≠ ColorOrder.banded →
         (computeBytesPerLine bpp w order nc).2 = (bpp * w + 7) / 8)) ∧
    (∀ s p n, mediaboxlookup p = true →
       (outPage s p n).written = some (pageHeaderOf s p n)) ∧
    (∀ s p n, (pageHeaderOf s p n).cupsBytesPerLine =
       (computeBytesPerLine s.header.cupsBitsPerPixel
          (pageHeaderOf s p n).cupsWidth
          s.header.cupsColorOrder s.header.cupsNumColors).2) ∧
    computeBytesPerLine 8 100 ColorOrder.chunked 4 = (100, 100) ∧
    computeBytesPerLine 1 10 ColorOrder.chunked 1 = (2, 2) ∧
    (∀ nc, computeBytesPerLine 8 100 ColorOrder.banded nc = (100, 100 * nc)) := by
  refine ⟨?_, ?_, ?_, by decide, by decide, fun nc => rfl⟩
  · intro bpp w order nc
    refine ⟨rfl, fun ho => ?_, fun ho => ?_⟩
    · simp [computeBytesPerLine, ho]
    · simp [computeBytesPerLine, ho]
  · intro s p n hm
    simp only [outPage, hm, Bool.not_true, Bool.false_eq_true, if_false]
    repeat' (first | rfl | split)
  · intro s p n
    rfl

/-- Witness for C6: the header written for the concrete 4x2 CMYK page. -/
theorem C6_witness :
    (outPage stW pageW 0).written = some (pageHeaderOf stW pageW 0) :=
  C6_bytes_per_line.2.1 stW pageW 0 (by decide)

/-- C7: `convertReverseLine` is selected exactly for duplex backside pages
whose image-x swap is still requested at selection time, and on each of its
three paths output pixel `i` is source pixel `pixelsPerRow - 1 - i` after
colorspace conversion (and after bit-depth repacking on the general
path). -/
theorem C7_convertReverseLine :
    (∀ s colorspace pgno s',
       selectConvertFunc s colorspace pgno = some s' →
       (s'.convertline = some LineFn.convertReverseLine ↔
        (duplexBackside s.header.Duplex pgno && s.swaps.swap_image_x) = true)) ∧
    (∀ convRow W nc i j, 0 < nc → i < W → j < nc →
       convertReverseLineChunked convRow W nc (nc * i + j)
         = convRow (nc * (W - 1 - i) + j)) ∧
    (∀ convRow pixels i, i < pixels →
       convertReverseLineOneBit convRow pixels i = convRow (pixels - 1 - i)) ∧
    (∀ (convPix : Nat → List Nat) convbits pixels i, i < pixels →
       convertReverseLineGeneral convPix convbits pixels i
         = convbits (convPix (pixels - 1 - i)) i) := by
  refine ⟨?_, ?_, fun convRow pixels i hi => rfl, ?_⟩
  · intro s colorspace pgno s' hsel
    have hcs : colorspace = "/DeviceRGB" ∨ colorspace = "/DeviceCMYK" ∨
        colorspace = "/DeviceGray" := by
      by_contra hc
      push_neg at hc
      obtain ⟨n1, n2, n3⟩ := hc
      simp [selectConvertFunc, n1, n2, n3] at hsel
    rcases hcs with h1 | h1 | h1 <;> subst h1 <;>
      injection hsel with hsel <;> rw [← hsel] <;>
      by_cases hg :
        (duplexBackside s.header.Duplex pgno && s.swaps.swap_image_x) = true <;>
      simp [hg]
  · intro convRow W nc i j hnc hi hj
    unfold convertReverseLineChunked
    rw [mul_add_div_small hnc i j hj, mul_add_mod_small i j hj]
    congr 1
    have e1 : (W - 1) * nc = nc * (W - 1) := Nat.mul_comm _ _
    have e2 : nc * (W - 1) = nc * W - nc * 1 := Nat.mul_sub nc W 1
    have e3 : nc * (W - 1 - i) = nc * (W - 1) - nc * i := Nat.mul_sub nc (W - 1) i
    have hb : nc * (i + 1) ≤ nc * W := Nat.mul_le_mul_left nc (by omega)
    rw [Nat.mul_succ] at hb
    omega
  · intro convPix convbits pixels i hi
    unfold convertReverseLineGeneral
    have e : pixels - i - 1 = pixels - 1 - i := by omega
    rw [e]

/-- Witness for C7: the selection outcome on the concrete non-duplex job
with an RGB page, and the chunked path on a concrete 4-pixel 3-channel
row. -/
theorem C7_witness :
    (selW.convertline = some LineFn.convertReverseLine ↔
       (duplexBackside stW.header.Duplex 0 && stW.swaps.swap_image_x) = true) ∧
    convertReverseLineChunked (fun k => k) 4 3 (3 * 1 + 2)
      = (fun k => k) (3 * (4 - 1 - 1) + 2) ∧
    convertReverseLineOneBit (fun k => k % 2 == 0) 6 4
      = (fun k => k % 2 == 0) (6 - 1 - 4) ∧
    convertReverseLineGeneral (fun p => [p]) (fun v i => v ++ [i]) 5 2
      = (fun p => [p]) (5 - 1 - 2) ++ [2] :=
  ⟨C7_convertReverseLine.1 stW "/DeviceRGB" 0 selW rfl,
   C7_convertReverseLine.2.1 (fun k => k) 4 3 1 2 (by omega) (by omega) (by omega),
   C7_convertReverseLine.2.2.1 (fun k => k % 2 == 0) 6 4 (by omega),
   C7_convertReverseLine.2.2.2 (fun p => [p]) (fun v i => v ++ [i]) 5 2 (by omega)⟩

/-! ## Helper lemmas about outPage and selectConvertFunc -/

theorem pageHeaderOf_Duplex (s : JobState) (p : Page) (n : Nat) :
    (pageHeaderOf s p n).Duplex = s.header.Duplex := rfl

theorem mediaboxlookup_false_of_not (p : Page)
    (h : ¬mediaboxlookup p = true) : mediaboxlookup p = false := by
  revert h; cases mediaboxlookup p <;> simp

theorem outPage_skip (s : JobState) (p : Page) (n : Nat)
    (hm : mediaboxlookup p = false) :
    outPage s p n =
      { trace := [], logs := [LogMsg.badMediaBox n], rotateCall := none,
        written := none, state := s, result := PageResult.skipped } := by
  simp [outPage, hm]

theorem outPage_written (s : JobState) (p : Page) (n : Nat)
    (hm : mediaboxlookup p = true) :
    (outPage s p n).written = some (pageHeaderOf s p n) := by
  simp only [outPage, hm, Bool.not_true, Bool.false_eq_true, if_false]
  repeat' (first | rfl | split)

theorem outPage_not_skipped (s : JobState) (p : Page) (n : Nat)
    (hm : mediaboxlookup p = true) :
    (outPage s p n).result ≠ PageResult.skipped := by
  simp only [outPage, hm, Bool.not_true, Bool.false_eq_true, if_false]
  repeat' (first | simp | split)

theorem selectConvertFunc_cs (s : JobState) (cs : String) (n : Nat)
    (s' : JobState) (h : selectConvertFunc s cs n = some s') :
    cs = "/DeviceRGB" ∨ cs = "/DeviceCMYK" ∨ cs = "/DeviceGray" := by
  by_contra hc
  push_neg at hc
  obtain ⟨n1, n2, n3⟩ := hc
  simp [selectConvertFunc, n1, n2, n3] at h

theorem selectConvertFunc_fields (s : JobState) (cs : String) (n : Nat)
    (s' : JobState) (h : selectConvertFunc s cs n = some s') :
    s'.swaps = s.swaps ∧ s'.header = s.header ∧ s'.nplanes = s.nplanes ∧
    s'.nbands = s.nbands := by
  rcases selectConvertFunc_cs s cs n s' h with h1 | h1 | h1 <;> subst h1 <;>
    injection h with h <;> rw [← h] <;> exact ⟨rfl, rfl, rfl, rfl⟩

theorem selectConvertFunc_rowsize (s : JobState) (cs : String) (n : Nat)
    (s' : JobState) (h : selectConvertFunc s cs n = some s') :
    s'.rowsize = s'.header.cupsWidth * s'.numcolors := by
  rcases selectConvertFunc_cs s cs n s' h with h1 | h1 | h1 <;>
    subst h1 <;> injection h with h <;> rw [← h] <;> simp

/-- C8: a page whose bounding box cannot be resolved (not a dictionary, no
/MediaBox key, or a /MediaBox that is not a 4-element array) is skipped:
outPage emits no header and no scanlines for it, logs the condition, and
returns so that the job continues with the next page from the same state;
a page with a valid bounding box is not skipped and gets its header
written. -/
theorem C8_invalid_mediabox_skip :
    (∀ s p n, mediaboxlookup p = false →
       outPage s p n =
         { trace := [], logs := [LogMsg.badMediaBox n], rotateCall := none,
           written := none, state := s, result := PageResult.skipped }) ∧
    (∀ s p rest n, mediaboxlookup p = false →
       runJob s (p :: rest) n =
         ((runJob s rest (n + 1)).1,
          LogMsg.badMediaBox n :: (runJob s rest (n + 1)).2)) ∧
    (∀ s p n, mediaboxlookup p = true →
       (outPage s p n).result ≠ PageResult.skipped ∧
       (outPage s p n).written = some (pageHeaderOf s p n)) := by
  refine ⟨fun s p n hm => outPage_skip s p n hm, ?_, fun s p n hm =>
    ⟨outPage_not_skipped s p n hm, outPage_written s p n hm⟩⟩
  intro s p rest n hm
  simp only [runJob, outPage_skip s p n hm]
  rfl

/-- Witness for C8: a page with no /MediaBox key is skipped with the state
unchanged. -/
theorem C8_witness :
    outPage stW pageNoBox 0 =
      { trace := [], logs := [LogMsg.badMediaBox 0], rotateCall := none,
        written := none, state := stW, result := PageResult.skipped } :=
  C8_invalid_mediabox_skip.1 stW pageNoBox 0 (by decide)

theorem cMod_bounds (a : Int) : -360 < cMod a 360 ∧ cMod a 360 < 360 := by
  unfold cMod
  split <;> omega

theorem toU32_invalid (r : Int) (h1 : -2147483648 ≤ r) (h2 : r < 2147483648)
    (h0 : r ≠ 0) (h90 : r ≠ 90) (h180 : r ≠ 180) (h270 : r ≠ 270) :
    toU32 r ≠ 0 ∧ toU32 r ≠ 90 ∧ toU32 r ≠ 180 ∧ toU32 r ≠ 270 := by
  unfold toU32
  refine ⟨?_, ?_, ?_, ?_⟩ <;> omega

theorem rotatebitmap_none (src dst : Nat → Nat) (h w rs : Nat) (cs : String)
    (a : Nat) (h0 : a ≠ 0) (h90 : a ≠ 90) (h180 : a ≠ 180) (h270 : a ≠ 270) :
    rotatebitmap src dst a h w rs cs = none := by
  unfold rotatebitmap
  simp [h0, h90, h180, h270]

/-- C9 counterexample: on a well-formed page with `/Rotate 45` the process
does abort with exit status 1, but a page header has already been emitted
before the abort — the claim's "produces no partial output (no header)" is
false on this input. -/
theorem C9_counterexample :
    (outPage stW pageRot45 0).result = PageResult.fatal 1 ∧
    ((outPage stW pageRot45 0).trace.any isHeaderEmit) = true := by
  decide

/-- C9 as amended: if a page's effective rotation — its `/Rotate` value
(a C `int`), plus 180 mod 360 when the duplex backside both-swap fold
applies — is any integer other than 0, 90, 180 or 270, the program aborts
fatally with exit status 1 and emits no scanlines for that page; the page's
header, however, has already been written before the abort. -/
theorem C9_amended_fatal_rotation :
    ∀ s p n, mediaboxlookup p = true →
    -2147483648 ≤ p.rotateKey.getD 0 → p.rotateKey.getD 0 < 2147483648 →
    ∀ er : Int,
    er = (if (duplexBackside s.header.Duplex n && s.swaps.swap_image_y &&
              s.swaps.swap_image_x) = true
          then cMod (p.rotateKey.getD 0 + 180) 360 else p.rotateKey.getD 0) →
    er ≠ 0 → er ≠ 90 → er ≠ 180 → er ≠ 270 →
    (outPage s p n).result = PageResult.fatal 1 ∧
    (outPage s p n).trace = [Emit.header (pageHeaderOf s p n)] ∧
    (outPage s p n).logs = [LogMsg.badRotate (toU32 er)] := by
  intro s p n hm hlo hhi er her h0 h90 h180 h270
  have hrange : -2147483648 ≤ er ∧ er < 2147483648 := by
    rw [her]; split
    · have := cMod_bounds (p.rotateKey.getD 0 + 180); omega
    · exact ⟨hlo, hhi⟩
  have hinv := toU32_invalid er hrange.1 hrange.2 h0 h90 h180 h270
  simp only [outPage, hm, Bool.not_true, Bool.false_eq_true, if_false,
    pageHeaderOf_Duplex]
  rw [← her]
  rw [if_pos ⟨h0, by
    rw [rotatebitmap_none _ _ _ _ _ _ _ hinv.1 hinv.2.1 hinv.2.2.1 hinv.2.2.2]
    rfl⟩]
  exact ⟨rfl, rfl, rfl⟩

/-- Witness for the amended C9 at the concrete `/Rotate 45` page. -/
theorem C9_witness :
    (outPage stW pageRot45 0).result = PageResult.fatal 1 ∧
    (outPage stW pageRot45 0).trace = [Emit.header (pageHeaderOf stW pageRot45 0)] ∧
    (outPage stW pageRot45 0).logs = [LogMsg.badRotate (toU32 45)] :=
  C9_amended_fatal_rotation stW pageRot45 0 (by decide) (by decide) (by decide)
    45 (by decide) (by decide) (by decide) (by decide) (by decide)

/-- C10: whenever a page has nonzero effective rotation, the Bitmap Rotator
is invoked with the global `rowsize` as it was left by the most recent
`selectConvertFunc` call of an earlier page — 0 at job start, before any
page ran `selectConvertFunc` — because `selectConvertFunc` runs only after
the rotation step; a page that completes normally leaves
`rowsize = cupsWidth * numcolors` for its own width; and the 180-degree
branch indexes the source from `height * rowsize` with that passed-in
value. -/
theorem C10_stale_rowsize :
    (∀ s p n, mediaboxlookup p = true →
       ∀ er : Int,
       er = (if (duplexBackside s.header.Duplex n && s.swaps.swap_image_y &&
                 s.swaps.swap_image_x) = true
             then cMod (p.rotateKey.getD 0 + 180) 360 else p.rotateKey.getD 0) →
       er ≠ 0 →
       (outPage s p n).rotateCall =
         some { angle := toU32 er, height := (pageHeaderOf s p n).cupsHeight,
                width := (pageHeaderOf s p n).cupsWidth,
                rowsize := s.rowsize }) ∧
    (∀ hdr backside fm m pw,
       (initialJobState hdr backside fm m pw).rowsize = 0) ∧
    (∀ s p n, (outPage s p n).result = PageResult.ok →
       (outPage s p n).state.rowsize =
         (outPage s p n).state.header.cupsWidth *
           (outPage s p n).state.numcolors) ∧
    (∀ src dst h w rs,
       rotatebitmap src dst 180 h w rs "/DeviceGray"
         = some (fun i => src (h * rs - 1 - i))) := by
  refine ⟨?_, fun hdr backside fm m pw => rfl, ?_,
    fun src dst h w rs => rfl⟩
  · intro s p n hm er her h0
    simp only [outPage, hm, Bool.not_true, Bool.false_eq_true, if_false,
      pageHeaderOf_Duplex]
    rw [← her, if_neg h0]
    simp only [apply_ite JobState.rowsize, ite_self]
    repeat' (first | rfl | split)
  · intro s p n hok
    by_cases hm : mediaboxlookup p = true
    case neg =>
      rw [outPage_skip s p n (mediaboxlookup_false_of_not p hm)] at hok
      simp at hok
    case pos =>
      simp only [outPage, hm, Bool.not_true, Bool.false_eq_true, if_false,
        pageHeaderOf_Duplex] at hok ⊢
      by_cases hf : (duplexBackside s.header.Duplex n &&
          s.swaps.swap_image_y && s.swaps.swap_image_x) = true <;>
        [simp only [if_pos hf] at hok ⊢; simp only [if_neg hf] at hok ⊢] <;>
      · split at hok
        next hc =>
          simp at hok
        next hc =>
          rw [if_neg hc]
          split at hok
          next hsel =>
            simp at hok
          next s3 hsel =>
            exact selectConvertFunc_rowsize _ _ _ _ hsel

/-- Witness for C10: the duplex backside fold page is rotated with the
job-start rowsize 0, and a normally completed page leaves
`rowsize = cupsWidth * numcolors`. -/
theorem C10_witness :
    (outPage stD pageW 1).rotateCall =
      some { angle := toU32 180,
             height := (pageHeaderOf stD pageW 1).cupsHeight,
             width := (pageHeaderOf stD pageW 1).cupsWidth,
             rowsize := stD.rowsize } ∧
    (outPage stW pageW 0).state.rowsize =
      (outPage stW pageW 0).state.header.cupsWidth *
        (outPage stW pageW 0).state.numcolors :=
  ⟨C10_stale_rowsize.1 stD pageW 1 (by decide) 180 (by decide) (by decide),
   C10_stale_rowsize.2.2.1 stW pageW 0 (by decide)⟩

theorem pageHeaderOf_setSwaps (s : JobState) (p : Page) (n : Nat)
    (a b c d : Bool) (hdup : duplexBackside s.header.Duplex n = false) :
    pageHeaderOf (setSwaps s a b c d) p n = pageHeaderOf s p n := by
  simp [pageHeaderOf, setSwaps, hdup]

theorem pageHeaderOf_swaps_indep (hdr : RasterHeader) (sw sw' : SwapState)
    (rs ncl : Nat) (ccs : Option CSpaceFn) (cl : Option LineFn)
    (np nb bpl : Nat) (pw : Bool) (mg : PageMargins) (p : Page) (n : Nat)
    (hdup : duplexBackside hdr.Duplex n = false) :
    pageHeaderOf ⟨hdr, sw', rs, ncl, ccs, cl, np, nb, bpl, pw, mg⟩ p n
      = pageHeaderOf ⟨hdr, sw, rs, ncl, ccs, cl, np, nb, bpl, pw, mg⟩ p n := by
  simp [pageHeaderOf, hdup]

theorem selectConvertFunc_swaps_indep (hdr : RasterHeader) (sw sw' : SwapState)
    (rs ncl : Nat) (ccs : Option CSpaceFn) (cl : Option LineFn)
    (np nb bpl : Nat) (pw : Bool) (mg : PageMargins) (cs : String) (n : Nat)
    (hdup : duplexBackside hdr.Duplex n = false) :
    selectConvertFunc ⟨hdr, sw', rs, ncl, ccs, cl, np, nb, bpl, pw, mg⟩ cs n
      = (selectConvertFunc ⟨hdr, sw, rs, ncl, ccs, cl, np, nb, bpl, pw, mg⟩
          cs n).map (fun t => { t with swaps := sw' }) := by
  by_cases h1 : cs = "/DeviceRGB"
  · subst h1; simp [selectConvertFunc, hdup]
  by_cases h2 : cs = "/DeviceCMYK"
  · subst h2; simp [selectConvertFunc, hdup]
  by_cases h3 : cs = "/DeviceGray"
  · subst h3; simp [selectConvertFunc, hdup]
  · simp [selectConvertFunc, h1, h2, h3]

/-- C2: on a duplex backside page whose swap state still requests both
image swaps, outPage folds the swaps into the rotation — the Bitmap Rotator
is invoked with 180 added (mod 360) to the page's rotation and both
image-swap flags are cleared beforehand; apart from this fold the four swap
booleans are never mutated by page processing; and when the page is not a
duplex backside the swap flags are not consulted at all — every observable
output of outPage is unchanged when they are replaced, and they pass
through untouched. -/
theorem C2_swap_state_invariants :
    (∀ s p n, mediaboxlookup p = true →
       duplexBackside s.header.Duplex n = true →
       s.swaps.swap_image_x = true → s.swaps.swap_image_y = true →
       (outPage s p n).state.swaps.swap_image_x = false ∧
       (outPage s p n).state.swaps.swap_image_y = false ∧
       (outPage s p n).state.swaps.swap_margin_x = s.swaps.swap_margin_x ∧
       (outPage s p n).state.swaps.swap_margin_y = s.swaps.swap_margin_y ∧
       (outPage s p n).rotateCall =
         (if cMod (p.rotateKey.getD 0 + 180) 360 = 0 then none
          else some { angle := toU32 (cMod (p.rotateKey.getD 0 + 180) 360),
                      height := (pageHeaderOf s p n).cupsHeight,
                      width := (pageHeaderOf s p n).cupsWidth,
                      rowsize := s.rowsize })) ∧
    (∀ s p n,
       (outPage s p n).state.swaps =
         (if (mediaboxlookup p && duplexBackside s.header.Duplex n &&
              s.swaps.swap_image_y && s.swaps.swap_image_x) = true
          then { s.swaps with swap_image_x := false, swap_image_y := false }
          else s.swaps)) ∧
    (∀ s p n a b c d, duplexBackside s.header.Duplex n = false →
       outPage (setSwaps s a b c d) p n =
         { outPage s p n with
           state := setSwaps (outPage s p n).state a b c d }) := by
  refine ⟨?_, ?_, ?_⟩
  · intro s p n hm hdup hx hy
    simp only [outPage, hm, Bool.not_true, Bool.false_eq_true, if_false,
      pageHeaderOf_Duplex]
    have hf : (duplexBackside s.header.Duplex n && s.swaps.swap_image_y &&
        s.swaps.swap_image_x) = true := by rw [hdup, hx, hy]; rfl
    simp only [if_pos hf]
    split
    next hc => exact ⟨rfl, rfl, rfl, rfl, rfl⟩
    next hc =>
      split
      next hsel => exact ⟨rfl, rfl, rfl, rfl, rfl⟩
      next s3 hsel =>
        obtain ⟨hsw, hh, hnp, hnb⟩ := selectConvertFunc_fields _ _ _ _ hsel
        exact ⟨by rw [hsw], by rw [hsw], by rw [hsw], by rw [hsw], rfl⟩
  · intro s p n
    by_cases hm : mediaboxlookup p = true
    case neg =>
      have hm' := mediaboxlookup_false_of_not p hm
      rw [outPage_skip s p n hm', hm']
      simp
    case pos =>
      simp only [outPage, hm, Bool.not_true, Bool.false_eq_true, if_false,
        pageHeaderOf_Duplex, Bool.true_and]
      by_cases hf : (duplexBackside s.header.Duplex n &&
          s.swaps.swap_image_y && s.swaps.swap_image_x) = true
      · simp only [if_pos hf]
        repeat' (first | rfl | split)
        all_goals
          rw [(selectConvertFunc_fields _ _ _ _ (by assumption)).1]
      · simp only [if_neg hf]
        repeat' (first | rfl | split)
        all_goals
          rw [(selectConvertFunc_fields _ _ _ _ (by assumption)).1]
  · intro s p n a b c d hdup
    obtain ⟨hdr0, sw0, rs0, nc0, cc0, cl0, np0, nb0, bp0, pw0, mg0⟩ := s
    have hdup0 : duplexBackside hdr0.Duplex n = false := hdup
    by_cases hm : mediaboxlookup p = true
    case neg =>
      have hm' := mediaboxlookup_false_of_not p hm
      rw [outPage_skip _ _ _ hm', outPage_skip _ _ _ hm']
    case pos =>
      simp only [outPage, setSwaps, hm, Bool.not_true, Bool.false_eq_true,
        if_false]
      simp only [pageHeaderOf_swaps_indep hdr0 sw0 ⟨a, b, c, d⟩ rs0 nc0 cc0
        cl0 np0 nb0 bp0 pw0 mg0 p n hdup0]
      simp only [pageHeaderOf_Duplex, hdup0, Bool.false_and,
        Bool.false_eq_true, if_false]
      simp only [selectConvertFunc_swaps_indep
        (pageHeaderOf ⟨hdr0, sw0, rs0, nc0, cc0, cl0, np0, nb0, bp0, pw0, mg0⟩ p n)
        sw0 ⟨a, b, c, d⟩ rs0 nc0 cc0 cl0 np0 nb0
        (computeBytesPerLine hdr0.cupsBitsPerPixel
          (pageHeaderOf ⟨hdr0, sw0, rs0, nc0, cc0, cl0, np0, nb0, bp0, pw0, mg0⟩ p n).cupsWidth
          hdr0.cupsColorOrder hdr0.cupsNumColors).1
        pw0 mg0 (pageColorspace p) n
        (by rw [pageHeaderOf_Duplex]; exact hdup0)]
      split
      · rfl
      · obtain ⟨X, hX⟩ : ∃ X, selectConvertFunc
            ⟨pageHeaderOf ⟨hdr0, sw0, rs0, nc0, cc0, cl0, np0, nb0, bp0, pw0, mg0⟩ p n,
             sw0, rs0, nc0, cc0, cl0, np0, nb0,
             (computeBytesPerLine hdr0.cupsBitsPerPixel
               (pageHeaderOf ⟨hdr0, sw0, rs0, nc0, cc0, cl0, np0, nb0, bp0, pw0, mg0⟩ p n).cupsWidth
               hdr0.cupsColorOrder hdr0.cupsNumColors).1,
             pw0, mg0⟩ (pageColorspace p) n = X := ⟨_, rfl⟩
        rw [hX]
        rcases X with _ | t
        · rfl
        · obtain ⟨hsw, hh, hnp, hnb⟩ := selectConvertFunc_fields _ _ _ _ hX
          have hg : duplexBackside t.header.Duplex n = false := by
            rw [hh]; exact hdup0
          simp only [Option.map_some', hg, Bool.false_and,
            Bool.false_eq_true, if_false]
/-- Witness for C2: on the duplex backside page 1 of the "Rotated" duplex
job the fold clears both image swaps and rotates by 180 with the current
(initial) rowsize; and on the non-duplex job the swap flags pass through
page processing untouched. -/
theorem C2_witness :
    ((outPage stD pageW 1).state.swaps.swap_image_x = false ∧
     (outPage stD pageW 1).state.swaps.swap_image_y = false ∧
     (outPage stD pageW 1).state.swaps.swap_margin_x =
       stD.swaps.swap_margin_x ∧
     (outPage stD pageW 1).state.swaps.swap_margin_y =
       stD.swaps.swap_margin_y ∧
     (outPage stD pageW 1).rotateCall =
       (if cMod (pageW.rotateKey.getD 0 + 180) 360 = 0 then none
        else some { angle := toU32 (cMod (pageW.rotateKey.getD 0 + 180) 360),
                    height := (pageHeaderOf stD pageW 1).cupsHeight,
                    width := (pageHeaderOf stD pageW 1).cupsWidth,
                    rowsize := stD.rowsize })) ∧
    outPage (setSwaps stW true false true false) pageW 0 =
      { outPage stW pageW 0 with
        state := setSwaps (outPage stW pageW 0).state true false true false } :=
  ⟨C2_swap_state_invariants.1 stD pageW 1 (by decide) (by decide) (by decide)
      (by decide),
   C2_swap_state_invariants.2.2 stW pageW 0 true false true false (by decide)⟩

end Pclm
